import Mathlib

/-!
Verification of the request-handling layer of the benjerry product API
(src/product/delivery/http/product_handler.go), shallowly embedded in Lean.

The embedding mirrors the Go source: wire structures, the pure mappers
`createToProduct` / `updateToProduct` / `newSingleResponse`, the
error-to-status translator `getResponseStatus`, the `writeErrorMessage`
helper, and the four per-operation handler pipelines. The `net/http`
response writer is modelled as an explicit record of header, status and
body writes (a body write with no prior explicit status write implicitly
records status 200, as in `net/http`). The `domain` package's sentinel
error values and the `common/validator` library are not part of the
sources; where a definition depends on them it is modelled from the spec
and documented as such.
-/

namespace BenJerry

/-- Domain error values returned by the service collaborator.
The five named constructors are the sentinel errors of the `domain`
package compared by identity in `getResponseStatus`; `unknown` stands for
any other error value. `Option GoError` plays the role of Go `error`,
with `none` for `nil`. -/
inductive GoError : Type
  | errAuthFail
  | errExpiredToken
  | errBadParamInput
  | errConflict
  | errResourceNotFound
  | unknown (msg : String)
  deriving DecidableEq, Repr

/-- Modelled from the spec: the user-facing text of each sentinel error
value (`err.Error()` in Go). The `domain` package defining these texts is
not among the sources, so the sentinel texts are fixed opaque strings;
only their role as "the error text" matters to the claims. -/
def GoError.message : GoError → String
  | .errAuthFail => "authentication failed"
  | .errExpiredToken => "credential has expired"
  | .errBadParamInput => "bad parameter input"
  | .errConflict => "conflict with existing resource"
  | .errResourceNotFound => "resource not found"
  | .unknown msg => msg

/-- The domain entity `domain.Product`, with the fields the handler file
reads and writes. `SourcingValues` and `Ingredients` are `*[]string` in
Go, hence `Option (List String)` here (`none` for a nil pointer). -/
structure Product : Type where
  ProductID : String := ""
  Name : String := ""
  ImageClosedURL : String := ""
  ImageOpenURL : String := ""
  Description : String := ""
  Story : String := ""
  SourcingValues : Option (List String) := none
  Ingredients : Option (List String) := none
  AllergyInfo : String := ""
  DietaryCertification : String := ""
  deriving DecidableEq, Repr

/-- Wire shape `productCreateRequest` (request body of Create). -/
structure productCreateRequest : Type where
  ProductID : String := ""
  Name : String := ""
  ImageClosedURL : String := ""
  ImageOpenURL : String := ""
  Description : String := ""
  Story : String := ""
  SourcingValues : Option (List String) := none
  Ingredients : Option (List String) := none
  AllergyInfo : String := ""
  DietaryCertification : String := ""
  deriving DecidableEq, Repr

/-- Wire shape `productUpdateRequest` (request body of Update); it has no
identity field. -/
structure productUpdateRequest : Type where
  Name : String := ""
  ImageClosedURL : String := ""
  ImageOpenURL : String := ""
  Description : String := ""
  Story : String := ""
  SourcingValues : Option (List String) := none
  Ingredients : Option (List String) := none
  AllergyInfo : String := ""
  DietaryCertification : String := ""
  deriving DecidableEq, Repr

/-- Wire shape `productResponseData`: the public projection of a product
placed under the `"product"` key of the response envelope. -/
structure productResponseData : Type where
  ProductID : String := ""
  Name : String := ""
  ImageClosedURL : String := ""
  ImageOpenURL : String := ""
  Description : String := ""
  Story : String := ""
  SourcingValues : Option (List String) := none
  Ingredients : Option (List String) := none
  AllergyInfo : String := ""
  DietaryCertification : String := ""
  deriving DecidableEq, Repr

/-- `createToProduct`: direct field copy from the create request into the
domain entity (product_handler.go lines 62-75). -/
def createToProduct (requestData : productCreateRequest) : Product :=
  { ProductID := requestData.ProductID
    Name := requestData.Name
    ImageClosedURL := requestData.ImageClosedURL
    ImageOpenURL := requestData.ImageOpenURL
    Description := requestData.Description
    Story := requestData.Story
    SourcingValues := requestData.SourcingValues
    Ingredients := requestData.Ingredients
    AllergyInfo := requestData.AllergyInfo
    DietaryCertification := requestData.DietaryCertification }

/-- `updateToProduct`: direct field copy from the update request into the
domain entity; the `ProductID` field is not mentioned in the Go composite
literal, so it takes the zero value `""` (product_handler.go lines 77-89). -/
def updateToProduct (requestData : productUpdateRequest) : Product :=
  { ProductID := ""
    Name := requestData.Name
    ImageClosedURL := requestData.ImageClosedURL
    ImageOpenURL := requestData.ImageOpenURL
    Description := requestData.Description
    Story := requestData.Story
    SourcingValues := requestData.SourcingValues
    Ingredients := requestData.Ingredients
    AllergyInfo := requestData.AllergyInfo
    DietaryCertification := requestData.DietaryCertification }

/-- `newSingleResponse`: direct field copy from the domain entity into the
response projection (product_handler.go lines 105-119). The Go function
wraps the data in `productSingleResponse`; the wrapper is applied at the
JSON level by `encodeSingleResponse`. -/
def newSingleResponse (product : Product) : productResponseData :=
  { ProductID := product.ProductID
    Name := product.Name
    ImageClosedURL := product.ImageClosedURL
    ImageOpenURL := product.ImageOpenURL
    Description := product.Description
    Story := product.Story
    SourcingValues := product.SourcingValues
    Ingredients := product.Ingredients
    AllergyInfo := product.AllergyInfo
    DietaryCertification := product.DietaryCertification }

/-- `getResponseStatus` (product_handler.go lines 242-257): the Go switch
on error identity. `none` is `nil`; `unknown` values hit the default arm. -/
def getResponseStatus : Option GoError → Nat
  | none => 200
  | some .errAuthFail => 401
  | some .errExpiredToken => 401
  | some .errBadParamInput => 400
  | some .errConflict => 200
  | some .errResourceNotFound => 404
  | some (.unknown _) => 500

/-- JSON values, as much of them as the handler layer serializes: strings,
arrays of strings, and objects with ordered fields. -/
inductive Json : Type
  | str (s : String)
  | arr (items : List String)
  | obj (fields : List (String × Json))

/-- The serialization of `productResponseData` under `encoding/json`.
Field order follows the struct declaration. `SourcingValues` and
`Ingredients` carry the tag `omitempty` on a pointer type: a nil pointer
omits the key entirely, while a pointer to an empty slice emits the key
with `[]`. -/
def encodeResponseData (d : productResponseData) : Json :=
  Json.obj
    ([("productId", Json.str d.ProductID),
      ("name", Json.str d.Name),
      ("image_closed", Json.str d.ImageClosedURL),
      ("image_open", Json.str d.ImageOpenURL),
      ("description", Json.str d.Description),
      ("story", Json.str d.Story)]
      ++ (match d.SourcingValues with
          | none => []
          | some items => [("sourcing_values", Json.arr items)])
      ++ (match d.Ingredients with
          | none => []
          | some items => [("ingredients", Json.arr items)])
      ++ [("allergy_info", Json.str d.AllergyInfo),
          ("dietary_certifications", Json.str d.DietaryCertification)])

/-- The serialization of `productSingleResponse`: the projection wrapped
under the `"product"` key. -/
def encodeSingleResponse (d : productResponseData) : Json :=
  Json.obj [("product", encodeResponseData d)]

/-- The serialization of `messageError`: `{"message": msg}`. -/
def errorEnvelope (msg : String) : Json :=
  Json.obj [("message", Json.str msg)]

/-- The keys of a JSON object (the empty list on non-objects). -/
def Json.keys : Json → List String
  | Json.obj fields => fields.map Prod.fst
  | _ => []

/-- Field lookup in a JSON object. -/
def Json.lookup (j : Json) (key : String) : Option Json :=
  match j with
  | Json.obj fields => (fields.find? (fun f => f.1 == key)).map Prod.snd
  | _ => none

/-- The `net/http` response writer, recorded as the lists of header,
status and body writes it has received. Bodies are kept as `Json` values
(every body the handler writes is one JSON-encoded envelope). -/
structure Response : Type where
  headers : List (String × String) := []
  statuses : List Nat := []
  bodies : List Json := []

/-- A fresh response writer. -/
def Response.empty : Response := {}

/-- `Header().Add(k, v)`: appends a header value. -/
def Response.addHeader (w : Response) (k v : String) : Response :=
  { w with headers := w.headers ++ [(k, v)] }

/-- `Header().Set(k, v)`: replaces any previous values of the key. -/
def Response.setHeader (w : Response) (k v : String) : Response :=
  { w with headers := w.headers.filter (fun p => p.1 != k) ++ [(k, v)] }

/-- `WriteHeader(code)`: records a status write. -/
def Response.writeHeader (w : Response) (code : Nat) : Response :=
  { w with statuses := w.statuses ++ [code] }

/-- A body write (`Encode` to the writer). As in `net/http`, a body write
with no explicit status write before it implicitly writes status 200. -/
def Response.writeBody (w : Response) (j : Json) : Response :=
  let w1 := if w.statuses.isEmpty then w.writeHeader 200 else w
  { w1 with bodies := w1.bodies ++ [j] }

/-- `writeErrorMessage` (product_handler.go lines 234-238): writes the
status, then the `messageError` envelope. -/
def writeErrorMessage (writer : Response) (errMsg : String) (httpStatus : Nat) : Response :=
  (writer.writeHeader httpStatus).writeBody (errorEnvelope errMsg)

/-- A request body as seen by the decode step. Modelled from the spec:
raw byte streams are opaque to this layer, so a body is classified by its
parse outcome — `malformed` for transport encoding that does not parse as
JSON, `parsed` for a body that decodes into the target structure. -/
inductive RequestBody (α : Type) : Type
  | malformed (raw : String)
  | parsed (value : α)

/-- Outcome of decode-then-validate. Modelled from the spec: the
`common/validator` library is not among the sources; the spec requires
decoding and validation to be two sequential steps whose failures are
distinguishable classes, both carrying a human-readable message that the
handler can obtain (`Message()`), and both handled locally with 400. -/
inductive DecodeResult (α : Type) : Type
  | ok (value : α)
  | decodeFailure (msg : String)
  | validationFailure (msg : String)

/-- Runs a list of (check, message) pairs in order and returns the first
violated check's message. Modelled from the spec: the validator reports
at least the first violated field with a human-readable reason. -/
def firstViolation : List (Bool × String) → Option String
  | [] => none
  | (passed, msg) :: rest => if passed then firstViolation rest else some msg

/-- The `numeric` constraint: a non-empty all-digit string. Modelled from
the spec ("numeric-string pattern"); the validator engine is not in src. -/
def isNumericString (s : String) : Bool :=
  !s.isEmpty && s.data.all (fun c => c.isDigit)

/-- The `ascii` constraint: every character is 7-bit. -/
def isASCIIString (s : String) : Bool :=
  s.data.all (fun c => c.toNat ≤ 127)

/-- Modelled from the spec: the `uri` well-formedness check of the
validator library (not in src). A well-formed URI is non-empty and
contains a scheme separator. -/
def isWellFormedURI (s : String) : Bool :=
  !s.isEmpty && s.data.any (fun c => c == ':')

/-- The validation rules of `productCreateRequest`, read off the struct
tags (product_handler.go lines 37-48), evaluated in field order:
`productId` required,numeric,min=3; `name` required,ascii,max=50;
the image URLs omitempty,uri; `description` required,max=100; `story`
omitempty,max=300; `allergy_info` required,max=50;
`dietary_certifications` required,max=25. -/
def validateCreate (r : productCreateRequest) : Option String :=
  firstViolation
    [(!r.ProductID.isEmpty, "productId is required"),
     (isNumericString r.ProductID, "productId must be numeric"),
     (decide (3 ≤ r.ProductID.length), "productId must have min length 3"),
     (!r.Name.isEmpty, "name is required"),
     (isASCIIString r.Name, "name must be ascii"),
     (decide (r.Name.length ≤ 50), "name must have max length 50"),
     (r.ImageClosedURL.isEmpty || isWellFormedURI r.ImageClosedURL,
       "image_closed must be a valid uri"),
     (r.ImageOpenURL.isEmpty || isWellFormedURI r.ImageOpenURL,
       "image_open must be a valid uri"),
     (!r.Description.isEmpty, "description is required"),
     (decide (r.Description.length ≤ 100), "description must have max length 100"),
     (r.Story.isEmpty || decide (r.Story.length ≤ 300),
       "story must have max length 300"),
     (!r.AllergyInfo.isEmpty, "allergy_info is required"),
     (decide (r.AllergyInfo.length ≤ 50), "allergy_info must have max length 50"),
     (!r.DietaryCertification.isEmpty, "dietary_certifications is required"),
     (decide (r.DietaryCertification.length ≤ 25),
       "dietary_certifications must have max length 25")]

/-- The validation rules of `productUpdateRequest` (product_handler.go
lines 50-60): every field `omitempty`, with the same inner rules as the
create shape when present. -/
def validateUpdate (r : productUpdateRequest) : Option String :=
  firstViolation
    [(r.Name.isEmpty || (isASCIIString r.Name && decide (r.Name.length ≤ 50)),
       "name must be ascii with max length 50"),
     (r.ImageClosedURL.isEmpty || isWellFormedURI r.ImageClosedURL,
       "image_closed must be a valid uri"),
     (r.ImageOpenURL.isEmpty || isWellFormedURI r.ImageOpenURL,
       "image_open must be a valid uri"),
     (r.Description.isEmpty || decide (r.Description.length ≤ 100),
       "description must have max length 100"),
     (r.Story.isEmpty || decide (r.Story.length ≤ 300),
       "story must have max length 300"),
     (r.AllergyInfo.isEmpty || decide (r.AllergyInfo.length ≤ 50),
       "allergy_info must have max length 50"),
     (r.DietaryCertification.isEmpty || decide (r.DietaryCertification.length ≤ 25),
       "dietary_certifications must have max length 25")]

/-- `DecodeAndValidateJSON` of `common/validator` applied to a create
body. Modelled from the spec: it produces either a populated structure
satisfying all declared constraints, or a failure (decode or validation)
carrying a human-readable message. -/
def DecodeAndValidateJSON (body : RequestBody productCreateRequest) :
    DecodeResult productCreateRequest :=
  match body with
  | RequestBody.malformed raw =>
      DecodeResult.decodeFailure ("invalid request body: " ++ raw)
  | RequestBody.parsed r =>
      match validateCreate r with
      | some msg => DecodeResult.validationFailure msg
      | none => DecodeResult.ok r

/-- `ValidateJSON` of `common/validator` applied to an update body.
Modelled from the spec, like `DecodeAndValidateJSON`. -/
def ValidateJSON (body : RequestBody productUpdateRequest) :
    DecodeResult productUpdateRequest :=
  match body with
  | RequestBody.malformed raw =>
      DecodeResult.decodeFailure ("invalid request body: " ++ raw)
  | RequestBody.parsed r =>
      match validateUpdate r with
      | some msg => DecodeResult.validationFailure msg
      | none => DecodeResult.ok r

/-- The calls a handler dispatches to the service collaborator. -/
inductive ServiceCall : Type
  | getProduct (id : String)
  | createProduct (p : Product)
  | updateProduct (id : String) (p : Product)
  | deleteProduct (id : String)
  deriving DecidableEq, Repr

/-- `handleGetProduct` (product_handler.go lines 138-156): add the
content-type header, call `service.GetProduct`, then either write the
error envelope with the translated status, or encode the single-product
envelope (implicit 200). Returns the final writer state and the service
calls dispatched. -/
def handleGetProduct (service : String → Product × Option GoError)
    (productID : String) : Response × List ServiceCall :=
  let w := Response.empty.addHeader "Content-Type" "application/json"
  let result := service productID
  match result.2 with
  | some e =>
      (writeErrorMessage w e.message (getResponseStatus (some e)),
       [ServiceCall.getProduct productID])
  | none =>
      (w.writeBody (encodeSingleResponse (newSingleResponse result.1)),
       [ServiceCall.getProduct productID])

/-- `handleCreateProduct` (product_handler.go lines 160-181): set the
content-type header, decode+validate the body (on failure: 400 with the
failure message, no service call), map to `Product`, call
`service.CreateProduct`, then 201 on success or the translated error
status. -/
def handleCreateProduct (service : Product → Option GoError)
    (body : RequestBody productCreateRequest) : Response × List ServiceCall :=
  let w := Response.empty.setHeader "Content-Type" "application/json"
  match DecodeAndValidateJSON body with
  | DecodeResult.decodeFailure msg => (writeErrorMessage w msg 400, [])
  | DecodeResult.validationFailure msg => (writeErrorMessage w msg 400, [])
  | DecodeResult.ok requestData =>
      let product := createToProduct requestData
      match service product with
      | some e =>
          (writeErrorMessage w e.message (getResponseStatus (some e)),
           [ServiceCall.createProduct product])
      | none => (w.writeHeader 201, [ServiceCall.createProduct product])

/-- `handleUpdateProduct` (product_handler.go lines 185-211): set the
content-type header, decode+validate the body (on failure: 400, no
service call), map to `Product`, force `ProductID` from the route path,
call `service.UpdateProduct`, then 200 on success or the translated
error status. -/
def handleUpdateProduct (service : String → Product → Option GoError)
    (productID : String) (body : RequestBody productUpdateRequest) :
    Response × List ServiceCall :=
  let w := Response.empty.setHeader "Content-Type" "application/json"
  match ValidateJSON body with
  | DecodeResult.decodeFailure msg => (writeErrorMessage w msg 400, [])
  | DecodeResult.validationFailure msg => (writeErrorMessage w msg 400, [])
  | DecodeResult.ok requestData =>
      let product := { updateToProduct requestData with ProductID := productID }
      match service productID product with
      | some e =>
          (writeErrorMessage w e.message (getResponseStatus (some e)),
           [ServiceCall.updateProduct productID product])
      | none => (w.writeHeader 200, [ServiceCall.updateProduct productID product])

/-- `handleDeleteProduct` (product_handler.go lines 215-231): set the
content-type header, call `service.DeleteProduct`, then 200 on success
or the translated error status. -/
def handleDeleteProduct (service : String → Option GoError)
    (productID : String) : Response × List ServiceCall :=
  let w := Response.empty.setHeader "content-type" "application/json"
  match service productID with
  | some e =>
      (writeErrorMessage w e.message (getResponseStatus (some e)),
       [ServiceCall.deleteProduct productID])
  | none => (w.writeHeader 200, [ServiceCall.deleteProduct productID])

/-- The wire-level view of an update body: which keys are present in the
JSON object. Embeds `encoding/json` unmarshalling into
`productUpdateRequest`: a key absent from the JSON leaves the Go struct
field at its zero value (`""` for `string` fields, nil for the pointer
fields), so absence is representable per field. -/
structure UpdatePatch : Type where
  Name : Option String := none
  ImageClosedURL : Option String := none
  ImageOpenURL : Option String := none
  Description : Option String := none
  Story : Option String := none
  SourcingValues : Option (List String) := none
  Ingredients : Option (List String) := none
  AllergyInfo : Option String := none
  DietaryCertification : Option String := none
  deriving DecidableEq, Repr

/-- `encoding/json` unmarshalling of an update body into the Go struct:
absent string keys collapse to `""` (the Go zero value); the two pointer
fields keep absence as nil. -/
def decodeUpdate (patch : UpdatePatch) : productUpdateRequest :=
  { Name := patch.Name.getD ""
    ImageClosedURL := patch.ImageClosedURL.getD ""
    ImageOpenURL := patch.ImageOpenURL.getD ""
    Description := patch.Description.getD ""
    Story := patch.Story.getD ""
    SourcingValues := patch.SourcingValues
    Ingredients := patch.Ingredients
    AllergyInfo := patch.AllergyInfo.getD ""
    DietaryCertification := patch.DietaryCertification.getD "" }

end BenJerry

namespace BenJerry

/-- Confirmed: the translator is a total Lean function and returns the
table of spec section 4.4. -/
theorem getResponseStatus_spec_table :
    getResponseStatus none = 200 ∧
    getResponseStatus (some GoError.errAuthFail) = 401 ∧
    getResponseStatus (some GoError.errExpiredToken) = 401 ∧
    getResponseStatus (some GoError.errBadParamInput) = 400 ∧
    getResponseStatus (some GoError.errConflict) = 200 ∧
    getResponseStatus (some GoError.errResourceNotFound) = 404 ∧
    ∀ msg : String, getResponseStatus (some (GoError.unknown msg)) = 500 := by
  refine ⟨rfl, rfl, rfl, rfl, rfl, rfl, ?_⟩
  intro msg
  rfl

/-- C2: for every Update request, the update mapper leaves the identity
field blank, and every Product dispatched to `service.UpdateProduct` by
the update handler carries `ProductID` equal to the id from the route
path, regardless of the request body. -/
theorem update_dispatch_forces_path_id :
    (∀ r : productUpdateRequest, (updateToProduct r).ProductID = "") ∧
    ∀ (service : String → Product → Option GoError) (productID : String)
      (body : RequestBody productUpdateRequest),
      ∀ c ∈ (handleUpdateProduct service productID body).2,
        ∃ p : Product, c = ServiceCall.updateProduct productID p ∧
          p.ProductID = productID := by
  refine ⟨fun r => rfl, ?_⟩
  intro service productID body c hc
  simp only [handleUpdateProduct] at hc
  split at hc
  · simp at hc
  · simp at hc
  · split at hc <;> simp only [List.mem_singleton] at hc <;>
      exact ⟨_, hc, rfl⟩

/-- C2 witness: a concrete update dispatch at path id `"123"` with a body
naming only `name` carries `ProductID = "123"`. -/
theorem update_dispatch_forces_path_id_witness :
    ∃ p : Product,
      ServiceCall.updateProduct "123"
          { updateToProduct { Name := "X" } with ProductID := "123" }
        = ServiceCall.updateProduct "123" p ∧ p.ProductID = "123" :=
  update_dispatch_forces_path_id.2 (fun _ _ => none) "123"
    (RequestBody.parsed { Name := "X" })
    (ServiceCall.updateProduct "123"
      { updateToProduct { Name := "X" } with ProductID := "123" })
    (List.mem_singleton.mpr rfl)

/-- C3: a Create body that fails a validation rule yields status 400 with
the first violation message, and the service is never invoked. -/
theorem create_validation_failure_short_circuits
    (service : Product → Option GoError) (r : productCreateRequest)
    (msg : String) (h : validateCreate r = some msg) :
    (handleCreateProduct service (RequestBody.parsed r)).1.statuses = [400] ∧
    (handleCreateProduct service (RequestBody.parsed r)).1.bodies
      = [errorEnvelope msg] ∧
    (handleCreateProduct service (RequestBody.parsed r)).2 = [] := by
  simp only [handleCreateProduct, DecodeAndValidateJSON, h]
  exact ⟨rfl, rfl, trivial⟩

/-- C3 witness: the empty-name request `{productId: "123"}` fails
validation and the handler responds 400 with no service call. -/
theorem create_validation_failure_short_circuits_witness :
    (handleCreateProduct (fun _ => some (GoError.unknown "boom"))
        (RequestBody.parsed { ProductID := "123" })).1.statuses = [400] ∧
    (handleCreateProduct (fun _ => some (GoError.unknown "boom"))
        (RequestBody.parsed { ProductID := "123" })).1.bodies
      = [errorEnvelope "name is required"] ∧
    (handleCreateProduct (fun _ => some (GoError.unknown "boom"))
        (RequestBody.parsed { ProductID := "123" })).2 = [] :=
  create_validation_failure_short_circuits
    (fun _ => some (GoError.unknown "boom")) { ProductID := "123" }
    "name is required" (by decide)

/-- C4: a malformed (unparsable) Create or Update body is handled locally
with status 400 and a descriptive message; no service call is made and
the failure does not propagate. -/
theorem malformed_body_handled_locally_400
    (createService : Product → Option GoError)
    (updateService : String → Product → Option GoError)
    (productID raw : String) :
    ((handleCreateProduct createService (RequestBody.malformed raw)).1.statuses
        = [400] ∧
     (handleCreateProduct createService (RequestBody.malformed raw)).1.bodies
        = [errorEnvelope ("invalid request body: " ++ raw)] ∧
     (handleCreateProduct createService (RequestBody.malformed raw)).2 = []) ∧
    ((handleUpdateProduct updateService productID
        (RequestBody.malformed raw)).1.statuses = [400] ∧
     (handleUpdateProduct updateService productID
        (RequestBody.malformed raw)).1.bodies
        = [errorEnvelope ("invalid request body: " ++ raw)] ∧
     (handleUpdateProduct updateService productID
        (RequestBody.malformed raw)).2 = []) :=
  ⟨⟨rfl, rfl, rfl⟩, ⟨rfl, rfl, rfl⟩⟩

/-- C5: when `service.GetProduct` returns the resource-not-found error,
the Get handler responds 404 with body `{"message": <err text>}`. -/
theorem get_not_found_responds_404 (product : Product) (productID : String)
    (service : String → Product × Option GoError)
    (h : service productID = (product, some GoError.errResourceNotFound)) :
    (handleGetProduct service productID).1.statuses = [404] ∧
    (handleGetProduct service productID).1.bodies
      = [errorEnvelope GoError.errResourceNotFound.message] ∧
    (handleGetProduct service productID).2
      = [ServiceCall.getProduct productID] := by
  unfold handleGetProduct
  rw [h]
  exact ⟨rfl, rfl, rfl⟩

/-- C5 witness: a Get at id `"42"` whose service reports not-found yields
404 and the error envelope. -/
theorem get_not_found_responds_404_witness :
    (handleGetProduct (fun _ => ({}, some GoError.errResourceNotFound))
        "42").1.statuses = [404] ∧
    (handleGetProduct (fun _ => ({}, some GoError.errResourceNotFound))
        "42").1.bodies = [errorEnvelope GoError.errResourceNotFound.message] ∧
    (handleGetProduct (fun _ => ({}, some GoError.errResourceNotFound))
        "42").2 = [ServiceCall.getProduct "42"] :=
  get_not_found_responds_404 {} "42"
    (fun _ => ({}, some GoError.errResourceNotFound)) rfl

/-- C6: the serialized product projection contains the `sourcing_values`
(resp. `ingredients`) key exactly when the field is present (non-nil),
carries the field's sequence verbatim when present (in particular `[]`
when present but empty), copies every other field verbatim, and the
envelope wraps the projection under the `product` key. -/
theorem response_serialization_optional_sequences (product : Product) :
    ("sourcing_values" ∈ Json.keys (encodeResponseData (newSingleResponse product))
        ↔ product.SourcingValues ≠ none) ∧
    ("ingredients" ∈ Json.keys (encodeResponseData (newSingleResponse product))
        ↔ product.Ingredients ≠ none) ∧
    (∀ items, product.SourcingValues = some items →
        Json.lookup (encodeResponseData (newSingleResponse product)) "sourcing_values"
          = some (Json.arr items)) ∧
    (∀ items, product.Ingredients = some items →
        Json.lookup (encodeResponseData (newSingleResponse product)) "ingredients"
          = some (Json.arr items)) ∧
    Json.lookup (encodeResponseData (newSingleResponse product)) "productId"
      = some (Json.str product.ProductID) ∧
    Json.lookup (encodeResponseData (newSingleResponse product)) "name"
      = some (Json.str product.Name) ∧
    Json.lookup (encodeResponseData (newSingleResponse product)) "image_closed"
      = some (Json.str product.ImageClosedURL) ∧
    Json.lookup (encodeResponseData (newSingleResponse product)) "image_open"
      = some (Json.str product.ImageOpenURL) ∧
    Json.lookup (encodeResponseData (newSingleResponse product)) "description"
      = some (Json.str product.Description) ∧
    Json.lookup (encodeResponseData (newSingleResponse product)) "story"
      = some (Json.str product.Story) ∧
    Json.lookup (encodeResponseData (newSingleResponse product)) "allergy_info"
      = some (Json.str product.AllergyInfo) ∧
    Json.lookup (encodeResponseData (newSingleResponse product)) "dietary_certifications"
      = some (Json.str product.DietaryCertification) ∧
    encodeSingleResponse (newSingleResponse product)
      = Json.obj [("product", encodeResponseData (newSingleResponse product))] := by
  rcases hs : product.SourcingValues with _ | items1 <;>
    rcases hi : product.Ingredients with _ | items2 <;>
      simp [encodeResponseData, newSingleResponse, encodeSingleResponse,
        Json.keys, Json.lookup, hs, hi, List.find?]

/-- C6 witness: with `sourcing_values` absent the key is omitted; with
`sourcing_values = []` present the key maps to the empty array. -/
theorem response_serialization_optional_sequences_witness :
    ("sourcing_values" ∈
        Json.keys (encodeResponseData (newSingleResponse
          ({ SourcingValues := none } : Product))) ↔
      ({ SourcingValues := none } : Product).SourcingValues ≠ none) ∧
    Json.lookup (encodeResponseData (newSingleResponse
        ({ SourcingValues := some [] } : Product))) "sourcing_values"
      = some (Json.arr []) :=
  ⟨(response_serialization_optional_sequences { SourcingValues := none }).1,
   (response_serialization_optional_sequences
      { SourcingValues := some [] }).2.2.1 [] rfl⟩

/-- C7: for a create request passing every validation rule, the mapper is
a verbatim field-for-field copy into the domain entity. -/
theorem createToProduct_direct_copy (r : productCreateRequest)
    (_h : validateCreate r = none) :
    (createToProduct r).ProductID = r.ProductID ∧
    (createToProduct r).Name = r.Name ∧
    (createToProduct r).ImageClosedURL = r.ImageClosedURL ∧
    (createToProduct r).ImageOpenURL = r.ImageOpenURL ∧
    (createToProduct r).Description = r.Description ∧
    (createToProduct r).Story = r.Story ∧
    (createToProduct r).SourcingValues = r.SourcingValues ∧
    (createToProduct r).Ingredients = r.Ingredients ∧
    (createToProduct r).AllergyInfo = r.AllergyInfo ∧
    (createToProduct r).DietaryCertification = r.DietaryCertification :=
  ⟨rfl, rfl, rfl, rfl, rfl, rfl, rfl, rfl, rfl, rfl⟩

/-- C7 witness: a concrete valid request maps verbatim. -/
theorem createToProduct_direct_copy_witness :
    (createToProduct
      { ProductID := "123", Name := "Vanilla", Description := "A pint",
        AllergyInfo := "may contain nuts",
        DietaryCertification := "kosher" }).ProductID = "123" ∧
    (createToProduct
      { ProductID := "123", Name := "Vanilla", Description := "A pint",
        AllergyInfo := "may contain nuts",
        DietaryCertification := "kosher" }).Name = "Vanilla" :=
  ⟨(createToProduct_direct_copy
      { ProductID := "123", Name := "Vanilla", Description := "A pint",
        AllergyInfo := "may contain nuts", DietaryCertification := "kosher" }
      (by decide)).1,
   (createToProduct_direct_copy
      { ProductID := "123", Name := "Vanilla", Description := "A pint",
        AllergyInfo := "may contain nuts", DietaryCertification := "kosher" }
      (by decide)).2.1⟩

/-- C8: a Create whose body decodes and validates and whose service call
succeeds responds 201 with an empty body, having dispatched exactly the
mapped product. -/
theorem create_success_responds_201_empty (service : Product → Option GoError)
    (r : productCreateRequest) (hv : validateCreate r = none)
    (hs : service (createToProduct r) = none) :
    (handleCreateProduct service (RequestBody.parsed r)).1.statuses = [201] ∧
    (handleCreateProduct service (RequestBody.parsed r)).1.bodies = [] ∧
    (handleCreateProduct service (RequestBody.parsed r)).2
      = [ServiceCall.createProduct (createToProduct r)] := by
  simp only [handleCreateProduct, DecodeAndValidateJSON, hv, hs]
  exact ⟨rfl, rfl, by simp⟩

/-- C8 witness: a concrete valid create with a succeeding service yields
201 and an empty body. -/
theorem create_success_responds_201_empty_witness :
    (handleCreateProduct (fun _ => none) (RequestBody.parsed
      { ProductID := "456", Name := "Choc", Description := "Dark",
        AllergyInfo := "none",
        DietaryCertification := "halal" })).1.statuses = [201] ∧
    (handleCreateProduct (fun _ => none) (RequestBody.parsed
      { ProductID := "456", Name := "Choc", Description := "Dark",
        AllergyInfo := "none",
        DietaryCertification := "halal" })).1.bodies = [] ∧
    (handleCreateProduct (fun _ => none) (RequestBody.parsed
      { ProductID := "456", Name := "Choc", Description := "Dark",
        AllergyInfo := "none",
        DietaryCertification := "halal" })).2
      = [ServiceCall.createProduct (createToProduct
          { ProductID := "456", Name := "Choc", Description := "Dark",
            AllergyInfo := "none", DietaryCertification := "halal" })] :=
  create_success_responds_201_empty (fun _ => none)
    { ProductID := "456", Name := "Choc", Description := "Dark",
      AllergyInfo := "none", DietaryCertification := "halal" }
    (by decide) rfl

/-- C9: each of the four handlers writes exactly one status code and at
most one body, on every path. -/
theorem handlers_single_status_single_body
    (getService : String → Product × Option GoError)
    (createService : Product → Option GoError)
    (updateService : String → Product → Option GoError)
    (deleteService : String → Option GoError)
    (productID : String)
    (createBody : RequestBody productCreateRequest)
    (updateBody : RequestBody productUpdateRequest) :
    ((handleGetProduct getService productID).1.statuses.length = 1 ∧
      (handleGetProduct getService productID).1.bodies.length ≤ 1) ∧
    ((handleCreateProduct createService createBody).1.statuses.length = 1 ∧
      (handleCreateProduct createService createBody).1.bodies.length ≤ 1) ∧
    ((handleUpdateProduct updateService productID updateBody).1.statuses.length = 1 ∧
      (handleUpdateProduct updateService productID updateBody).1.bodies.length ≤ 1) ∧
    ((handleDeleteProduct deleteService productID).1.statuses.length = 1 ∧
      (handleDeleteProduct deleteService productID).1.bodies.length ≤ 1) := by
  refine ⟨?_, ?_, ?_, ?_⟩
  · cases h : (getService productID).2 <;>
      simp [handleGetProduct, h, writeErrorMessage, Response.writeBody,
        Response.writeHeader, Response.addHeader, Response.empty]
  · rcases createBody with raw | r
    · simp [handleCreateProduct, DecodeAndValidateJSON, writeErrorMessage,
        Response.writeBody, Response.writeHeader, Response.setHeader,
        Response.empty]
    · cases hv : validateCreate r
      · cases hs : createService (createToProduct r) <;>
          simp [handleCreateProduct, DecodeAndValidateJSON, hv, hs,
            writeErrorMessage, Response.writeBody, Response.writeHeader,
            Response.setHeader, Response.empty]
      · simp [handleCreateProduct, DecodeAndValidateJSON, hv,
          writeErrorMessage, Response.writeBody, Response.writeHeader,
          Response.setHeader, Response.empty]
  · rcases updateBody with raw | r
    · simp [handleUpdateProduct, ValidateJSON, writeErrorMessage,
        Response.writeBody, Response.writeHeader, Response.setHeader,
        Response.empty]
    · cases hv : validateUpdate r
      · cases hs : updateService productID
            { updateToProduct r with ProductID := productID } <;>
          simp [handleUpdateProduct, ValidateJSON, hv, hs,
            writeErrorMessage, Response.writeBody, Response.writeHeader,
            Response.setHeader, Response.empty]
      · simp [handleUpdateProduct, ValidateJSON, hv, writeErrorMessage,
          Response.writeBody, Response.writeHeader, Response.setHeader,
          Response.empty]
  · cases h : deleteService productID <;>
      simp [handleDeleteProduct, h, writeErrorMessage, Response.writeBody,
        Response.writeHeader, Response.setHeader, Response.empty]

/-- C10: decoding an update body collapses each absent scalar field to
the empty string — a patch with the field absent decodes identically to
the same patch with the field present as `""`, and the mapped Product
carries `""` there — while the two pointer-typed sequence fields pass
through `updateToProduct` preserving the absent-vs-empty distinction. -/
theorem update_decode_collapses_absent_scalars (patch : UpdatePatch) :
    (patch.Name = none →
      decodeUpdate patch = decodeUpdate { patch with Name := some "" } ∧
      (updateToProduct (decodeUpdate patch)).Name = "") ∧
    (patch.ImageClosedURL = none →
      decodeUpdate patch = decodeUpdate { patch with ImageClosedURL := some "" } ∧
      (updateToProduct (decodeUpdate patch)).ImageClosedURL = "") ∧
    (patch.ImageOpenURL = none →
      decodeUpdate patch = decodeUpdate { patch with ImageOpenURL := some "" } ∧
      (updateToProduct (decodeUpdate patch)).ImageOpenURL = "") ∧
    (patch.Description = none →
      decodeUpdate patch = decodeUpdate { patch with Description := some "" } ∧
      (updateToProduct (decodeUpdate patch)).Description = "") ∧
    (patch.Story = none →
      decodeUpdate patch = decodeUpdate { patch with Story := some "" } ∧
      (updateToProduct (decodeUpdate patch)).Story = "") ∧
    (patch.AllergyInfo = none →
      decodeUpdate patch = decodeUpdate { patch with AllergyInfo := some "" } ∧
      (updateToProduct (decodeUpdate patch)).AllergyInfo = "") ∧
    (patch.DietaryCertification = none →
      decodeUpdate patch
          = decodeUpdate { patch with DietaryCertification := some "" } ∧
      (updateToProduct (decodeUpdate patch)).DietaryCertification = "") ∧
    (updateToProduct (decodeUpdate patch)).SourcingValues
      = patch.SourcingValues ∧
    (updateToProduct (decodeUpdate patch)).Ingredients = patch.Ingredients := by
  refine ⟨?_, ?_, ?_, ?_, ?_, ?_, ?_, rfl, rfl⟩ <;>
    intro h <;> simp [decodeUpdate, updateToProduct, h]

/-- C10 witness: the all-absent patch decodes like the patch with
`name: ""`, and the mapped Product has an empty name while keeping the
sequence fields nil. -/
theorem update_decode_collapses_absent_scalars_witness :
    (decodeUpdate {} = decodeUpdate { Name := some "" } ∧
      (updateToProduct (decodeUpdate {})).Name = "") ∧
    (updateToProduct (decodeUpdate {})).SourcingValues = none :=
  ⟨(update_decode_collapses_absent_scalars {}).1 rfl,
   (update_decode_collapses_absent_scalars {}).2.2.2.2.2.2.2.1⟩

end BenJerry
